import Mathlib

/-!
Verification of the X-Timeline-Curator curation core.

This file gives a shallow embedding, in Lean 4, of the decision-relevant
parts of the repository:

* the tier-2 fallback classifier `fallbackClassification` and the decision
  log `logLine` from the background script;
* the tier-1 classifier `classify`, `cosine`, and the interest-embedding
  cache `recalcEmbeddings` from `scripts/offscreen.js`;
* the model lifecycle manager `getMiniLMPipeline` / `retryFetch` from
  `scripts/modelManager.js`;
* the orchestrator handlers `startCuration` and the `AI_LOAD_FAILED`
  branch of the background message listener.

JavaScript numbers are modelled as `ℚ` where the code only compares and
divides small integers (the fallback semantic score) and as `ℝ` where the
code takes square roots (cosine similarity).  JavaScript strings are
`String`; the values `null` / `undefined` / other non-strings that can
reach a text parameter are the extra constructors of `JSText`.
-/

namespace Curator

/-! ## JavaScript string primitives -/

/-- Membership of `pat` as a contiguous substring of `l`, mirroring
JavaScript `String.prototype.includes`. -/
def listContainsAux (pat : List Char) : List Char → Bool
  | [] => pat.isEmpty
  | c :: cs => pat.isPrefixOf (c :: cs) || listContainsAux pat cs

/-- JavaScript `String.prototype.toLowerCase` (ASCII case mapping; like
`String.toLower`, but structurally recursive over the character list). -/
def jsToLower (s : String) : String :=
  String.mk (s.data.map Char.toLower)

/-- JavaScript `s.includes(pat)`. -/
def strContains (s pat : String) : Bool :=
  listContainsAux pat.toList s.toList

/-- JavaScript `pat` matching at the start of `s` (regex `^pat`). -/
def strStartsWith (s pat : String) : Bool :=
  pat.toList.isPrefixOf s.toList

/-- Worker for `jsSplitWs`.  The first argument is `some cur` while a token
(with its characters in reverse) is being accumulated and `none` while a
run of separator whitespace is being skipped. -/
def jsSplitWsAux : Option (List Char) → List Char → List String
  | some cur, [] => [String.mk cur.reverse]
  | none, [] => [""]
  | some cur, c :: cs =>
      if c.isWhitespace then String.mk cur.reverse :: jsSplitWsAux none cs
      else jsSplitWsAux (some (c :: cur)) cs
  | none, c :: cs =>
      if c.isWhitespace then jsSplitWsAux none cs
      else jsSplitWsAux (some [c]) cs

/-- JavaScript `s.split(/\s+/)`: splits at maximal whitespace runs and, as
in JavaScript, keeps an empty token at either end when the string starts
or ends with whitespace. -/
def jsSplitWs (s : String) : List String :=
  jsSplitWsAux (some []) s.toList

/-- JavaScript `Math.round` on an exact rational. -/
def jsRound (q : ℚ) : ℤ := ⌊q + 1 / 2⌋

/-! ## Classification data model -/

/-- A JavaScript value supplied where the code expects tweet text.  The
constructor `other` stands for any further non-string value (a number, an
object without `toLowerCase`, and so on). -/
inductive JSText where
  | str (s : String)
  | jsNull
  | jsUndefined
  | other
deriving DecidableEq

/-- `{isUninteresting, reason}` as produced by both classifier tiers. -/
structure ClassificationResult where
  isUninteresting : Bool
  reason : String
deriving DecidableEq

/-! ## Tier-2 fallback classifier (background script, `fallbackClassification`) -/

/-- The fixed spam keyword list local to `fallbackClassification`. -/
def fallbackSpamKeywords : List String :=
  ["sponsored", "promoted", "advertisement", "buy now", "click here",
   "limited time", "act now", "dm me", "link in bio", "follow back",
   "get rich", "make money", "work from home", "crypto opportunity",
   "investment opportunity", "f4f", "l4l", "check my bio", "promo code"]

/-- The fixed quality indicator list local to `fallbackClassification`. -/
def qualityIndicators : List String :=
  ["research", "study", "analysis", "breakthrough", "discovered", "published",
   "scientists", "university", "paper", "findings", "data shows"]

/-- The alternatives of the engagement-bait regex
`/^(rt if|retweet if|like if|agree or disagree)/i`. -/
def baitAlternatives : List String :=
  ["rt if", "retweet if", "like if", "agree or disagree"]

/-- The case-insensitive anchored engagement-bait test on the raw text. -/
def isEngagementBait (text : String) : Bool :=
  baitAlternatives.any (fun p => strStartsWith (jsToLower text) p)

/-- Matches contributed by one `(word, iWord)` pair of the nested loops of
`fallbackClassification`: the length-3 containment test plus the four
abbreviation tests, each adding 1 independently. -/
def pairMatches (word iWord : String) : ℕ :=
  (if 3 ≤ word.length ∧ 3 ≤ iWord.length ∧
      (strContains word iWord ∨ strContains iWord word) then 1 else 0) +
  (if word = "ai" ∧ (iWord = "artificial" ∨ iWord = "intelligence") then 1 else 0) +
  (if word = "ml" ∧ (iWord = "machine" ∨ iWord = "learning") then 1 else 0) +
  (if word = "gpu" ∧ iWord = "graphics" then 1 else 0) +
  (if word = "cpu" ∧ iWord = "processor" then 1 else 0)

/-- `matchCount` of `fallbackClassification` for one interest. -/
def matchCount (words iWords : List String) : ℕ :=
  (words.map (fun w => (iWords.map (fun iw => pairMatches w iw)).sum)).sum

/-- `score = matchCount / interestWords.length` for one interest term. -/
def interestScore (lowerText interestLower : String) : ℚ :=
  let words := jsSplitWs lowerText
  let iWords := jsSplitWs interestLower
  (matchCount words iWords : ℚ) / (iWords.length : ℚ)

/-- The interest loop of `fallbackClassification`: returns `.inl interest`
for the first interest whose lowercase form occurs in the lowercased text
(the early `Direct match` return), otherwise `.inr (bestScore, bestMatch)`
accumulated over all interests with a strict `>` update. -/
def scanInterests (lowerText : String) :
    List String → ℚ → Option String → Sum String (ℚ × Option String)
  | [], best, bestM => .inr (best, bestM)
  | i :: rest, best, bestM =>
      if strContains lowerText (jsToLower i) then .inl i
      else if best < interestScore lowerText (jsToLower i) then
        scanInterests lowerText rest (interestScore lowerText (jsToLower i)) (some i)
      else scanInterests lowerText rest best bestM

/-- The tier-2 fallback classifier, translated clause by clause from
`fallbackClassification` in the background script. -/
def fallbackClassification (text : JSText) (interests : List String) :
    ClassificationResult :=
  match text with
  | .str s =>
    let lowerText := jsToLower s
    match fallbackSpamKeywords.find? (fun k => strContains lowerText k) with
    | some k => ⟨true, "Spam keyword: " ++ k⟩
    | none =>
      match scanInterests lowerText interests 0 none with
      | .inl i => ⟨false, "Direct match: " ++ i⟩
      | .inr (bestScore, bestMatch) =>
        if isEngagementBait s then ⟨true, "Engagement bait pattern"⟩
        else
          match qualityIndicators.find? (fun q => strContains lowerText q) with
          | some q => ⟨false, "Quality content: " ++ q⟩
          | none =>
            if (1 : ℚ) / 2 < bestScore then
              ⟨false, "Semantic match: " ++ bestMatch.getD "null" ++ " (" ++
                toString (jsRound (bestScore * 100)) ++ "%)"⟩
            else ⟨true, "No matching interests (using fallback classification)"⟩
  | _ => ⟨true, "Invalid text input"⟩

/-! ## Tier-1 classifier (`scripts/offscreen.js`) -/

/-- The dot product loop of `cosine`; vectors are lists of reals (the code
uses equal-dimension Float32Array embeddings). -/
noncomputable def dotList (a b : List ℝ) : ℝ :=
  (List.zipWith (fun x y => x * y) a b).sum

/-- `cosine` from `scripts/offscreen.js`:
`dot / (Math.sqrt(na) * Math.sqrt(nb))`. -/
noncomputable def cosine (a b : List ℝ) : ℝ :=
  dotList a b / (Real.sqrt (dotList a a) * Real.sqrt (dotList b b))

/-- Decimal rendering of a number of hundredths, used to model
`Number.prototype.toFixed(2)`. -/
def fmtHundredths (n : ℤ) : String :=
  (if n < 0 then "-" else "") ++
  toString (n.natAbs / 100) ++ "." ++
  (if n.natAbs % 100 < 10 then "0" else "") ++ toString (n.natAbs % 100)

/-- `x.toFixed(2)` on an exact real: round to hundredths, then render. -/
noncomputable def jsToFixed2 (x : ℝ) : String :=
  fmtHundredths ⌊x * 100 + 1 / 2⌋

/-- The `maxSim` loop of `classify`: start at `-1`, replace on strictly
greater similarity. -/
noncomputable def maxSimLoop (e : List ℝ) (ies : List (String × List ℝ)) : ℝ :=
  ies.foldl (fun m i => if m < cosine e i.2 then cosine e i.2 else m) (-1)

/-- The spam test at the top of `classify`:
`spamList.some(k => lower.includes(k))`. -/
def spamHit (spamList : List String) (tweet : String) : Bool :=
  spamList.any (fun k => strContains (jsToLower tweet) k)

/-- The body of `classify` from `scripts/offscreen.js` for a string tweet,
parameterised by the mutable offscreen state (`spamList`,
`interestEmbeddings`, `threshold`) and by the embedding provider `emb`
(the `classifier` pipeline). -/
noncomputable def classify (spamList : List String)
    (interestEmbeddings : List (String × List ℝ)) (threshold : ℝ)
    (emb : String → List ℝ) (tweet : String) : ClassificationResult :=
  if spamHit spamList tweet then ⟨true, "Spam"⟩
  else if interestEmbeddings.isEmpty then ⟨false, "No interests"⟩
  else
    let e := emb tweet
    let maxSim := maxSimLoop e interestEmbeddings
    ⟨decide (maxSim < threshold), "sim=" ++ jsToFixed2 maxSim⟩

/-- `classify` as invoked on an arbitrary JavaScript value: the first
statement `tweet.toLowerCase()` throws a `TypeError` whenever the value is
`null`, `undefined` or any other non-string. -/
noncomputable def classifyJS (spamList : List String)
    (interestEmbeddings : List (String × List ℝ)) (threshold : ℝ)
    (emb : String → List ℝ) : JSText → Except String ClassificationResult
  | .str s => .ok (classify spamList interestEmbeddings threshold emb s)
  | _ => .error "TypeError: tweet.toLowerCase is not a function"

/-- The initial value of the offscreen `threshold` variable. -/
def initialThreshold : ℚ := 35 / 100

/-- Mutable state of the offscreen document: the lazily acquired pipeline
`classifier`, the interest-embedding cache, the spam list and the
similarity threshold. -/
structure OffState where
  classifier : Option (String → List ℝ)
  interestEmbeddings : List (String × List ℝ)
  spamList : List String
  threshold : ℝ

/-- `recalcEmbeddings` from `scripts/offscreen.js`: a no-op while no
classifier is loaded, otherwise a single wholesale assignment of the
freshly mapped embedding list. -/
def recalcEmbeddings (st : OffState) (interests : List String) : OffState :=
  match st.classifier with
  | none => st
  | some clf =>
      { st with interestEmbeddings := interests.map (fun t => (t, clf t)) }

/-- The `SET_INTERESTS` branch of the offscreen message listener. -/
def handleSetInterests (st : OffState) (interests spamKeywords : List String)
    (threshold : ℝ) : OffState :=
  let st' := recalcEmbeddings st interests
  { st' with spamList := spamKeywords, threshold := threshold }

/-- The provider-ready transition: `ensureModel` stores the pipeline, and
the background `AI_READY` handler immediately sends `SET_INTERESTS` with
the cached interests, which the offscreen listener applies. -/
def readyTransition (st : OffState) (clf : String → List ℝ)
    (cachedInterests spamKeywords : List String) (threshold : ℝ) : OffState :=
  handleSetInterests { st with classifier := some clf }
    cachedInterests spamKeywords threshold

/-! ## Model lifecycle manager (`scripts/modelManager.js`) -/

/-- Mutable module state of `modelManager.js`.  `loadPromise` models the
`_loadPromise` memo: `some id` when a load attempt (identified by its
sequence number) is memoized, `none` when cleared.  `attemptsStarted`
counts the underlying load attempts ever launched. -/
structure MMState where
  modelReady : Bool
  loadPromise : Option ℕ
  attemptsStarted : ℕ
deriving DecidableEq

/-- The fresh module state. -/
def mmInit : MMState := ⟨false, none, 0⟩

/-- `getMiniLMPipeline`: return the memoized attempt if one exists,
otherwise launch and memoize a new underlying load attempt. -/
def getMiniLMPipeline (st : MMState) : ℕ × MMState :=
  match st.loadPromise with
  | some p => (p, st)
  | none =>
      let id := st.attemptsStarted + 1
      (id, { st with loadPromise := some id, attemptsStarted := id })

/-- The `catch` branch of the load attempt: `_loadPromise = null`. -/
def onLoadFailed (st : MMState) : MMState := { st with loadPromise := none }

/-- The success path of the load attempt: `modelReady = true`, with the
memo left in place. -/
def onLoadSucceeded (st : MMState) : MMState := { st with modelReady := true }

/-- The per-call timeout passed to `AbortSignal.timeout` in `retryFetch`,
in milliseconds. -/
def retryFetchTimeoutMs : ℕ := 30000

/-- One run of `retryFetch`, driven by an oracle `f` giving the outcome of
each fetch attempt (`none` = success, `some msg` = failure with message).
Returns the overall outcome, the list of backoff delays slept (ms), and
the number of fetch attempts made.  The fuel argument equals
`maxRetries - attempt + 1` and makes the loop structurally recursive. -/
def retryFetchGo (f : ℕ → Option String) (maxRetries : ℕ) :
    ℕ → ℕ → Except String Unit × List ℕ × ℕ
  | _, 0 => (.ok (), [], 0)
  | attempt, fuel + 1 =>
      match f attempt with
      | none => (.ok (), [], 1)
      | some msg =>
          if attempt = maxRetries then
            (.error ("Failed to fetch after " ++ toString maxRetries ++
              " attempts: " ++ msg), [], 1)
          else
            let delay := 2 ^ (attempt - 1) * 1000
            let r := retryFetchGo f maxRetries (attempt + 1) fuel
            (r.1, delay :: r.2.1, r.2.2 + 1)

/-- `retryFetch(url, options, maxRetries)` with the fetch outcomes
abstracted into the oracle `f`. -/
def retryFetch (f : ℕ → Option String) (maxRetries : ℕ) :
    Except String Unit × List ℕ × ℕ :=
  retryFetchGo f maxRetries 1 maxRetries

/-- The error-message classification in the `catch` of
`getMiniLMPipeline` (message inspection order: fetch, timeout, HTTP). -/
def classifyLoadError (msg : String) : String :=
  if strContains msg "fetch" then
    "Network error: Check internet connection and try again"
  else if strContains msg "timeout" then
    "Download timeout: Model download took too long"
  else if strContains msg "HTTP" then "Server error: " ++ msg
  else msg

/-- The wrapping applied by the network-probe `catch` inside
`getMiniLMPipeline` before rethrowing. -/
def networkProbeError (msg : String) : String :=
  "Network connectivity issue: " ++ msg

/-! ## Background orchestrator (`part_000` of the background script) -/

/-- The observable background/session state touched by `startCuration`,
`stopCuration` and the `AI_LOAD_FAILED` handler. -/
structure BgState where
  isRunning : Bool
  aiReady : Bool
  alarmArmed : Bool
  observerActive : Bool
deriving DecidableEq

/-- The response object passed to `sendResponse`. -/
structure JsResponse where
  success : Bool
  error : Option String
deriving DecidableEq

/-- Tab-URL eligibility test of `startCuration`:
`tab.url.includes("x.com") || tab.url.includes("twitter.com")`,
with missing tab or falsy url rejected first. -/
def eligibleTab : Option String → Bool
  | none => false
  | some url =>
      url ≠ "" && (strContains url "x.com" || strContains url "twitter.com")

/-- `startCuration`: no-op when already running; no-op on an ineligible
active tab; no-op when content-script injection fails (`injectOk`);
otherwise persists `isRunning`, arms the keep-alive alarm and, when the
provider is ready, activates the observer. -/
def startCuration (st : BgState) (tab : Option String) (injectOk : Bool) :
    BgState :=
  if st.isRunning then st
  else if ¬ eligibleTab tab then st
  else if ¬ injectOk then st
  else
    { st with
      isRunning := true
      alarmArmed := true
      observerActive := if st.aiReady then true else st.observerActive }

/-- The `START_CURATION` branch of the background message listener: await
`startCuration`, then reply `{success: true}` (the same object on every
non-throwing path). -/
def handleStartCuration (st : BgState) (tab : Option String)
    (injectOk : Bool) : BgState × JsResponse :=
  (startCuration st tab injectOk, ⟨true, none⟩)

/-- The network classification used by the `AI_LOAD_FAILED` handler. -/
def isNetworkErrorMsg (msg : String) : Bool :=
  strContains msg "Network" || strContains msg "fetch" ||
  strContains msg "timeout" || strContains msg "connectivity"

/-- The retry delay hardcoded in the `AI_LOAD_FAILED` handler
(`setTimeout(..., 15000)`), in milliseconds. -/
def aiRetryDelayMs : ℕ := 15000

/-- The `AI_LOAD_FAILED` branch of the background message listener: clear
`aiReady`; when the message is network-classified and curation is still
running, schedule exactly one deferred retry of model acquisition.  The
second component lists the delays of the timers armed by the handler. -/
def handleAiLoadFailed (st : BgState) (payload : String) :
    BgState × List ℕ :=
  let st' := { st with aiReady := false }
  if isNetworkErrorMsg payload && st.isRunning then (st', [aiRetryDelayMs])
  else (st', [])

/-! ## Decision log (background script, `logLine`) -/

/-- One decision-log entry as pushed by `logLine`. -/
structure DecisionLogEntry where
  ts : ℕ
  id : String
  decision : String
  reason : String
  text : String
deriving DecidableEq

/-- The ring-buffer capacity of the curation log. -/
def logCapacity : ℕ := 2000

/-- `logLine`: drop the entry when `id`, `decision` or `reason` is falsy;
otherwise push to the end and, when the length exceeds 2000, `shift()`
one entry off the front. -/
def logLine (log : List DecisionLogEntry) (e : DecisionLogEntry) :
    List DecisionLogEntry :=
  if e.id = "" ∨ e.decision = "" ∨ e.reason = "" then log
  else
    let l := log ++ [e]
    if logCapacity < l.length then l.drop 1 else l

/-- The guard of `logLine` as a proposition. -/
def validLogEntry (e : DecisionLogEntry) : Prop :=
  e.id ≠ "" ∧ e.decision ≠ "" ∧ e.reason ≠ ""

instance (e : DecisionLogEntry) : Decidable (validLogEntry e) := by
  unfold validLogEntry; infer_instance

/-! ## Specification-side restatements

Definitions in this section follow the wording of the specification, to be
compared with the source-derived definitions above. -/

/-- The update step of the weak-semantic accumulator. -/
def semStep (lowerText : String) (p : ℚ × Option String) (i : String) :
    ℚ × Option String :=
  if p.1 < interestScore lowerText (jsToLower i) then
    (interestScore lowerText (jsToLower i), some i)
  else p

/-- Modelled from the spec wording of tier-2 rule 5: the best-scoring
interest with its score, over the whole interest list. -/
def bestSemantic (lowerText : String) (interests : List String) :
    ℚ × Option String :=
  interests.foldl (semStep lowerText) (0, none)

/-- Modelled from the spec wording of tier 2: the six rules as a flat
first-match-wins cascade — spam keyword, direct interest match,
engagement bait, quality indicator, weak semantic overlap above one half,
default hide — with the invalid-input short-circuit in front. -/
def fallbackSpecCascade (text : JSText) (interests : List String) :
    ClassificationResult :=
  match text with
  | .str s =>
    let lowerText := jsToLower s
    match fallbackSpamKeywords.find? (fun k => strContains lowerText k) with
    | some k => ⟨true, "Spam keyword: " ++ k⟩
    | none =>
      match interests.find? (fun i => strContains lowerText (jsToLower i)) with
      | some i => ⟨false, "Direct match: " ++ i⟩
      | none =>
        if isEngagementBait s then ⟨true, "Engagement bait pattern"⟩
        else
          match qualityIndicators.find? (fun q => strContains lowerText q) with
          | some q => ⟨false, "Quality content: " ++ q⟩
          | none =>
            if (1 : ℚ) / 2 < (bestSemantic lowerText interests).1 then
              ⟨false, "Semantic match: " ++
                (bestSemantic lowerText interests).2.getD "null" ++ " (" ++
                toString (jsRound ((bestSemantic lowerText interests).1 * 100)) ++
                "%)"⟩
            else ⟨true, "No matching interests (using fallback classification)"⟩
  | _ => ⟨true, "Invalid text input"⟩

/-! ## Lemmas about the fallback classifier -/

/-- The interest loop splits into the first direct match, when one exists,
and otherwise the plain best-score fold. -/
theorem scanInterests_eq (lt : String) (ints : List String) (b : ℚ)
    (m : Option String) :
    scanInterests lt ints b m =
      match ints.find? (fun i => strContains lt (jsToLower i)) with
      | some i => Sum.inl i
      | none => Sum.inr (ints.foldl (semStep lt) (b, m)) := by
  induction ints generalizing b m with
  | nil => simp [scanInterests]
  | cons i rest ih =>
    by_cases h : strContains lt (jsToLower i) = true
    · simp [scanInterests, h, List.find?_cons_of_pos]
    · rw [List.find?_cons_of_neg _ (by simpa using h)]
      simp only [scanInterests, h, if_false, Bool.false_eq_true, List.foldl_cons]
      by_cases h2 : b < interestScore lt (jsToLower i)
      · rw [if_pos h2, ih, semStep, if_pos h2]
      · rw [if_neg h2, ih, semStep, if_neg h2]

/-- Claim C1: for every string text and every interest list, the tier-2
fallback classifier evaluates its rules as the strict first-match-wins
cascade spam keyword → direct interest match → engagement bait → quality
indicator → weak semantic overlap above one half → default hide; in
particular a text containing both a spam keyword and a direct interest
match is hidden with the spam reason. -/
theorem C1_fallback_rule_precedence :
    (∀ (s : String) (interests : List String),
      fallbackClassification (.str s) interests =
        fallbackSpecCascade (.str s) interests) ∧
    fallbackClassification (.str "Buy now! great ai research") ["ai"] =
      ⟨true, "Spam keyword: buy now"⟩ := by
  constructor
  · intro s interests
    simp only [fallbackClassification, fallbackSpecCascade, scanInterests_eq,
      bestSemantic]
    cases fallbackSpamKeywords.find? (fun k => strContains (jsToLower s) k) with
    | some k => rfl
    | none =>
      cases interests.find? (fun i => strContains (jsToLower s) (jsToLower i)) with
      | some i => rfl
      | none => rfl
  · decide

/-! ## Lemmas about the decision log -/

/-- One `logLine` append of a valid entry to a log strictly below capacity
is a plain push. -/
theorem logLine_push (log : List DecisionLogEntry) (e : DecisionLogEntry)
    (hv : validLogEntry e) (hlen : log.length + 1 ≤ logCapacity) :
    logLine log e = log ++ [e] := by
  obtain ⟨h1, h2, h3⟩ := hv
  unfold logLine
  rw [if_neg (by tauto)]
  rw [if_neg]
  simp only [List.length_append, List.length_singleton]
  omega

/-- Folding `logLine` over valid entries that fit under capacity is list
append. -/
theorem foldl_logLine_fits (es : List DecisionLogEntry) :
    ∀ log : List DecisionLogEntry, (∀ e ∈ es, validLogEntry e) →
      log.length + es.length ≤ logCapacity →
      List.foldl logLine log es = log ++ es := by
  induction es with
  | nil => simp
  | cons e rest ih =>
    intro log hval hlen
    have step : logLine log e = log ++ [e] :=
      logLine_push log e (hval e (by simp)) (by simp at hlen; omega)
    rw [List.foldl_cons, step,
      ih (log ++ [e]) (fun x hx => hval x (List.mem_cons_of_mem _ hx))
        (by simp at hlen ⊢; omega)]
    simp

/-- Claim C4: the decision log is a FIFO ring buffer of capacity 2000:
each append pushes to the end and evicts from the front when the length
exceeds 2000, the log length never exceeds 2000, and appending 2001 valid
entries to an empty log leaves exactly 2000 entries with the oldest
evicted. -/
theorem C4_decision_log_ring_buffer :
    (∀ (log : List DecisionLogEntry) (e : DecisionLogEntry),
      log.length ≤ logCapacity → (logLine log e).length ≤ logCapacity) ∧
    (∀ es : List DecisionLogEntry, (∀ e ∈ es, validLogEntry e) →
      es.length = logCapacity + 1 →
      List.foldl logLine [] es = es.drop 1) := by
  constructor
  · intro log e h
    unfold logLine
    split
    · exact h
    · dsimp only
      split
      · simpa using Nat.le_trans (by simp) h
      · next hcap =>
          simp only [List.length_append, List.length_singleton] at hcap ⊢
          omega
  · intro es hval hlen
    induction es using List.reverseRecOn with
    | nil => simp [logCapacity] at hlen
    | append_singleton es1 e _ =>
      have h1 : es1.length = logCapacity := by
        simp only [List.length_append, List.length_singleton] at hlen
        omega
      rw [List.foldl_append, List.foldl_cons, List.foldl_nil,
        foldl_logLine_fits es1 []
          (fun x hx => hval x (by simp [hx]))
          (by simp [h1])]
      simp only [List.nil_append]
      obtain ⟨g1, g2, g3⟩ := hval e (by simp)
      unfold logLine
      rw [if_neg (by tauto), if_pos]
      simp only [List.length_append, List.length_singleton]
      omega

/-- Witness for C4 at a concrete log and a concrete 2001-entry sequence. -/
theorem C4_decision_log_ring_buffer_witness :
    (logLine [] ⟨0, "x", "hide", "r", ""⟩).length ≤ logCapacity ∧
    List.foldl logLine []
        (List.replicate (logCapacity + 1) ⟨0, "x", "hide", "r", ""⟩) =
      (List.replicate (logCapacity + 1)
        (⟨0, "x", "hide", "r", ""⟩ : DecisionLogEntry)).drop 1 :=
  ⟨C4_decision_log_ring_buffer.1 [] _ (by simp),
   C4_decision_log_ring_buffer.2 _
     (fun e he => by rw [List.eq_of_mem_replicate he]; decide)
     (by simp)⟩

/-! ## String lemmas -/

/-- The substring test agrees with list infixhood. -/
theorem listContainsAux_iff (pat : List Char) (l : List Char) :
    listContainsAux pat l = true ↔ pat <:+: l := by
  induction l with
  | nil => simp [listContainsAux, List.isEmpty_iff, List.infix_nil]
  | cons c cs ih =>
    simp [listContainsAux, List.isPrefixOf_iff_prefix, ih, List.infix_cons_iff]

/-- A substring of `s` is a substring of `s ++ t`. -/
theorem strContains_append_left (s t pat : String)
    (h : strContains s pat = true) : strContains (s ++ t) pat = true := by
  rw [strContains, listContainsAux_iff] at h ⊢
  have e : (s ++ t).toList = s.toList ++ t.toList := String.data_append s t
  rw [e]
  exact h.trans (List.prefix_append s.toList t.toList).isInfix

/-- Appending to a nonempty string on the left is nonempty. -/
theorem append_ne_empty_left (a b : String) (h : a.length ≠ 0) :
    a ++ b ≠ "" := by
  intro hc
  have hl := congrArg String.length hc
  rw [String.length_append] at hl
  simp only [show ("" : String).length = 0 from rfl] at hl
  omega

/-- Appending to a nonempty string on the right is nonempty. -/
theorem append_ne_empty_right (a b : String) (h : b.length ≠ 0) :
    a ++ b ≠ "" := by
  intro hc
  have hl := congrArg String.length hc
  rw [String.length_append] at hl
  simp only [show ("" : String).length = 0 from rfl] at hl
  omega

/-! ## Claim C5: single-flight model acquisition -/

/-- Claim C5: model acquisition is single-flight and idempotent: a second
`getMiniLMPipeline` call before the first attempt settles returns the same
pending outcome and leaves the state unchanged, hence exactly one
underlying load attempt is started for both calls; the failure path clears
the memo, and an acquisition after a failure starts a fresh attempt. -/
theorem C5_acquire_single_flight :
    (∀ st : MMState,
      (getMiniLMPipeline (getMiniLMPipeline st).2).1 = (getMiniLMPipeline st).1 ∧
      (getMiniLMPipeline (getMiniLMPipeline st).2).2 = (getMiniLMPipeline st).2) ∧
    (∀ st : MMState, st.loadPromise = none →
      (getMiniLMPipeline st).2.attemptsStarted = st.attemptsStarted + 1) ∧
    (∀ st : MMState, (onLoadFailed st).loadPromise = none) ∧
    (∀ st : MMState,
      (getMiniLMPipeline (onLoadFailed st)).1 = st.attemptsStarted + 1 ∧
      (getMiniLMPipeline (onLoadFailed st)).2.attemptsStarted =
        st.attemptsStarted + 1) := by
  refine ⟨?_, ?_, fun st => rfl, ?_⟩
  · intro st
    cases h : st.loadPromise with
    | some p => simp [getMiniLMPipeline, h]
    | none => simp [getMiniLMPipeline, h]
  · intro st h
    simp [getMiniLMPipeline, h]
  · intro st
    simp [getMiniLMPipeline, onLoadFailed]

/-- Witness for C5 at the fresh module state. -/
theorem C5_acquire_single_flight_witness :
    mmInit.loadPromise = none ∧
    (getMiniLMPipeline mmInit).2.attemptsStarted = mmInit.attemptsStarted + 1 :=
  ⟨rfl, C5_acquire_single_flight.2.1 mmInit rfl⟩

/-! ## Claim C6: network probe retry loop -/

/-- Claim C6 counterexample: with every fetch attempt failing, the probe
makes its 3 attempts but sleeps only 1s and 2s between them — the claimed
4s backoff sleep never occurs, because the third failure throws
immediately. -/
theorem C6_no_4s_backoff_counterexample :
    retryFetch (fun _ => some "connection refused") 3 =
      (.error "Failed to fetch after 3 attempts: connection refused",
        [1000, 2000], 3) ∧
    (4000 : ℕ) ∉ (retryFetch (fun _ => some "connection refused") 3).2.1 := by
  refine ⟨rfl, ?_⟩
  decide

/-- Claim C6 (amended): when every fetch attempt fails, `retryFetch` makes
exactly 3 attempts under the 30-second per-call timeout, sleeping 1s and
then 2s between them, and exhausting the attempts yields an error that the
loader classifies as a network error. -/
theorem C6_retry_three_attempts (f : ℕ → Option String) (m1 m2 m3 : String)
    (h1 : f 1 = some m1) (h2 : f 2 = some m2) (h3 : f 3 = some m3) :
    retryFetch f 3 =
      (.error ("Failed to fetch after 3 attempts: " ++ m3), [1000, 2000], 3) ∧
    classifyLoadError
        (networkProbeError ("Failed to fetch after 3 attempts: " ++ m3)) =
      "Network error: Check internet connection and try again" ∧
    retryFetchTimeoutMs = 30000 := by
  refine ⟨?_, ?_, rfl⟩
  · simp only [retryFetch, retryFetchGo, h1, h2, h3]
    norm_num
    rfl
  · unfold classifyLoadError networkProbeError
    rw [if_pos]
    have hfix : "Network connectivity issue: " ++
        ("Failed to fetch after 3 attempts: " ++ m3) =
        ("Network connectivity issue: " ++ "Failed to fetch after 3 attempts: ")
          ++ m3 := by
      rw [String.append_assoc]
    rw [hfix]
    exact strContains_append_left _ _ _ (by decide)

/-- Witness for C6 with a concrete failing fetch oracle. -/
theorem C6_retry_three_attempts_witness :
    ((fun _ : ℕ => some "x") 1 = some "x") ∧
    (retryFetch (fun _ : ℕ => some "x") 3 =
      (.error ("Failed to fetch after 3 attempts: " ++ "x"), [1000, 2000], 3) ∧
     classifyLoadError
        (networkProbeError ("Failed to fetch after 3 attempts: " ++ "x")) =
      "Network error: Check internet connection and try again" ∧
     retryFetchTimeoutMs = 30000) :=
  ⟨rfl, C6_retry_three_attempts (fun _ => some "x") "x" "x" "x" rfl rfl rfl⟩

/-! ## Claim C7: interest cache recompute -/

/-- Claim C7: recompute while the provider is not ready leaves the whole
offscreen state unchanged; recompute with a loaded provider replaces the
cache wholesale with exactly one embedding per interest term, touching no
other field; and the cached interests sent on the ready transition are
applied at that point. -/
theorem C7_recompute_frame :
    (∀ (st : OffState) (ints : List String), st.classifier = none →
      recalcEmbeddings st ints = st) ∧
    (∀ (st : OffState) (ints : List String) (clf : String → List ℝ),
      st.classifier = some clf →
      recalcEmbeddings st ints =
        { st with interestEmbeddings := ints.map (fun t => (t, clf t)) } ∧
      (recalcEmbeddings st ints).interestEmbeddings.length = ints.length) ∧
    (∀ (st : OffState) (clf : String → List ℝ) (ints spam : List String)
      (thr : ℝ), st.classifier = none →
      (readyTransition st clf ints spam thr).interestEmbeddings =
        ints.map (fun t => (t, clf t))) := by
  refine ⟨?_, ?_, ?_⟩
  · intro st ints h
    unfold recalcEmbeddings
    rw [h]
  · intro st ints clf h
    unfold recalcEmbeddings
    rw [h]
    simp
  · intro st clf ints spam thr _
    unfold readyTransition handleSetInterests recalcEmbeddings
    simp

/-- Witness for C7 at concrete offscreen states. -/
theorem C7_recompute_frame_witness :
    ((⟨none, [("old", [])], [], 0⟩ : OffState).classifier = none ∧
      recalcEmbeddings ⟨none, [("old", [])], [], 0⟩ ["ai"] =
        ⟨none, [("old", [])], [], 0⟩) ∧
    (recalcEmbeddings ⟨some (fun _ => [1]), [("old", [])], [], 0⟩ ["ai"] =
      { (⟨some (fun _ => [1]), [("old", [])], [], 0⟩ : OffState) with
        interestEmbeddings :=
          ["ai"].map (fun t => (t, (fun _ => ([1] : List ℝ)) t)) }) ∧
    (readyTransition ⟨none, [("old", [])], [], 0⟩ (fun _ => [1]) ["ai"] [] 1
      ).interestEmbeddings =
      ["ai"].map (fun t => (t, (fun _ => ([1] : List ℝ)) t)) :=
  ⟨⟨rfl, C7_recompute_frame.1 _ ["ai"] rfl⟩,
   (C7_recompute_frame.2.1 _ ["ai"] (fun _ => [1]) rfl).1,
   C7_recompute_frame.2.2 _ (fun _ => [1]) ["ai"] [] 1 rfl⟩

/-! ## Claim C8: deferred retry on network-classified load failure -/

/-- Claim C8 counterexample: the deferred retry the `AI_LOAD_FAILED`
handler schedules on a network-classified failure uses a 15-second delay,
not the claimed 2 minutes. -/
theorem C8_delay_not_two_minutes :
    (handleAiLoadFailed ⟨true, true, true, true⟩
      "Network error: Check internet connection and try again").2 = [15000] ∧
    (15000 : ℕ) ≠ 120000 := by
  exact ⟨by decide, by decide⟩

/-- Claim C8 (amended): on a network-classified load failure while
curation is running, the handler clears `aiReady` and schedules exactly
one deferred retry of model acquisition with a fixed 15-second delay; no
load failure ever stops curation. -/
theorem C8_network_failure_retry (st : BgState) (payload : String)
    (hnet : isNetworkErrorMsg payload = true) (hrun : st.isRunning = true) :
    handleAiLoadFailed st payload =
      ({ st with aiReady := false }, [aiRetryDelayMs]) ∧
    aiRetryDelayMs = 15000 ∧
    (∀ (st' : BgState) (p' : String),
      (handleAiLoadFailed st' p').1.isRunning = st'.isRunning) := by
  refine ⟨?_, rfl, ?_⟩
  · unfold handleAiLoadFailed
    simp [hnet, hrun]
  · intro st' p'
    unfold handleAiLoadFailed
    split <;> rfl

/-- Witness for C8 at a concrete running state and network message. -/
theorem C8_network_failure_retry_witness :
    isNetworkErrorMsg "Network error: Check internet connection and try again"
        = true ∧
    (handleAiLoadFailed ⟨true, false, true, true⟩
        "Network error: Check internet connection and try again" =
      ({ (⟨true, false, true, true⟩ : BgState) with aiReady := false },
        [aiRetryDelayMs]) ∧
     aiRetryDelayMs = 15000 ∧
     (∀ (st' : BgState) (p' : String),
       (handleAiLoadFailed st' p').1.isRunning = st'.isRunning)) :=
  ⟨by decide,
   C8_network_failure_retry ⟨true, false, true, true⟩ _ (by decide) rfl⟩

/-! ## Claim C9: start() no-op and declined result -/

/-- Claim C9 counterexample: invoking `START_CURATION` on an ineligible
tab leaves the state unchanged but replies with the same generic
`{success: true}` response as a successful start — no declined result
reaches the caller. -/
theorem C9_no_declined_result :
    (handleStartCuration ⟨false, false, false, false⟩
      (some "https://example.com/feed") true).1 =
      ⟨false, false, false, false⟩ ∧
    (handleStartCuration ⟨false, false, false, false⟩
      (some "https://example.com/feed") true).2 =
      (handleStartCuration ⟨false, false, false, false⟩
        (some "https://x.com/home") true).2 := by
  exact ⟨by decide, by decide⟩

/-- Claim C9 (amended): `start()` is a no-op when the session is already
running, and with an ineligible active surface it makes no state change
(`isRunning` stays false, no keep-alive armed, no observer activated) and
returns without error; however the message handler replies with the
generic success response, not a distinct declined result. -/
theorem C9_start_noop (st : BgState) (tab : Option String) (ok : Bool)
    (hrun : st.isRunning = true) :
    handleStartCuration st tab ok = (st, ⟨true, none⟩) ∧
    (∀ (st' : BgState) (tab' : Option String) (ok' : Bool),
      st'.isRunning = false → eligibleTab tab' = false →
      handleStartCuration st' tab' ok' = (st', ⟨true, none⟩)) := by
  refine ⟨?_, ?_⟩
  · unfold handleStartCuration startCuration
    simp [hrun]
  · intro st' tab' ok' h he
    unfold handleStartCuration startCuration
    simp [h, he]

/-- Witness for C9 at a running state and an ineligible tab. -/
theorem C9_start_noop_witness :
    (⟨true, true, true, true⟩ : BgState).isRunning = true ∧
    (handleStartCuration ⟨true, true, true, true⟩ none true =
      (⟨true, true, true, true⟩, ⟨true, none⟩) ∧
     (∀ (st' : BgState) (tab' : Option String) (ok' : Bool),
       st'.isRunning = false → eligibleTab tab' = false →
       handleStartCuration st' tab' ok' = (st', ⟨true, none⟩))) :=
  ⟨rfl, C9_start_noop ⟨true, true, true, true⟩ none true rfl⟩

/-! ## Claim C2: totality of classification -/

/-- Claim C2 counterexample: the tier-1 `classify` of the offscreen
document begins with `tweet.toLowerCase()` and therefore throws a
`TypeError` on a null tweet instead of returning a fallback result. -/
theorem C2_null_text_throws :
    classifyJS [] [] 0 (fun _ => []) .jsNull =
      .error "TypeError: tweet.toLowerCase is not a function" := rfl

/-- Claim C2 (amended): the tier-2 fallback classifier returns a fully
populated result with a non-empty reason for every input — null,
undefined, non-string, the empty string, empty interest lists,
unicode text — and never throws; the tier-1 `classify` does so for every
string tweet, but throws a `TypeError` on null, undefined or other
non-string text. -/
theorem C2_classification_total :
    (∀ (t : JSText) (interests : List String),
      (fallbackClassification t interests).reason ≠ "") ∧
    (∀ (spamList : List String) (ies : List (String × List ℝ)) (thr : ℝ)
      (emb : String → List ℝ) (s : String),
      ∃ r, classifyJS spamList ies thr emb (.str s) = .ok r ∧
        r.reason ≠ "") ∧
    (∀ (spamList : List String) (ies : List (String × List ℝ)) (thr : ℝ)
      (emb : String → List ℝ) (t : JSText), (∀ s, t ≠ .str s) →
      classifyJS spamList ies thr emb t =
        .error "TypeError: tweet.toLowerCase is not a function") := by
  refine ⟨?_, ?_, ?_⟩
  · intro t interests
    cases t with
    | str s =>
      simp only [fallbackClassification]
      cases fallbackSpamKeywords.find? (fun k => strContains (jsToLower s) k) with
      | some k => exact append_ne_empty_left "Spam keyword: " k (by decide)
      | none =>
        cases scanInterests (jsToLower s) interests 0 none with
        | inl i => exact append_ne_empty_left "Direct match: " i (by decide)
        | inr p =>
          obtain ⟨bs, bm⟩ := p
          dsimp only
          split
          · exact (by decide : ("Engagement bait pattern" : String) ≠ "")
          · cases qualityIndicators.find?
                (fun q => strContains (jsToLower s) q) with
            | some q => exact append_ne_empty_left "Quality content: " q (by decide)
            | none =>
              dsimp only
              split
              · exact append_ne_empty_right _ "%)" (by decide)
              · exact (by decide :
                  ("No matching interests (using fallback classification)" :
                    String) ≠ "")
    | jsNull => exact (by decide : ("Invalid text input" : String) ≠ "")
    | jsUndefined => exact (by decide : ("Invalid text input" : String) ≠ "")
    | other => exact (by decide : ("Invalid text input" : String) ≠ "")
  · intro spamList ies thr emb s
    refine ⟨classify spamList ies thr emb s, rfl, ?_⟩
    unfold classify
    split
    · exact (by decide : ("Spam" : String) ≠ "")
    · split
      · exact (by decide : ("No interests" : String) ≠ "")
      · exact append_ne_empty_left "sim=" _ (by decide)
  · intro spamList ies thr emb t ht
    cases t with
    | str s => exact absurd rfl (ht s)
    | jsNull => rfl
    | jsUndefined => rfl
    | other => rfl

/-- Witness for C2 at a concrete non-string input. -/
theorem C2_classification_total_witness :
    (∀ s, (JSText.jsUndefined ≠ JSText.str s)) ∧
    classifyJS ["promoted"] [] 1 (fun _ => []) .jsUndefined =
      .error "TypeError: tweet.toLowerCase is not a function" :=
  ⟨fun s => by simp,
   C2_classification_total.2.2 ["promoted"] [] 1 (fun _ => []) .jsUndefined
     (fun s => by simp)⟩

/-! ## Lemmas about cosine similarity -/

/-- A dot product of a list with itself is nonnegative. -/
theorem dotList_self_nonneg (a : List ℝ) : 0 ≤ dotList a a := by
  induction a with
  | nil => simp [dotList]
  | cons x a ih =>
    have e : dotList (x :: a) (x :: a) = x * x + dotList a a := by
      simp [dotList]
    rw [e]
    nlinarith [mul_self_nonneg x]

/-- The inductive step of the Cauchy–Schwarz inequality. -/
theorem cs_step (x y d na nb : ℝ) (h1 : d ^ 2 ≤ na * nb) (hna : 0 ≤ na)
    (hnb : 0 ≤ nb) : (x * y + d) ^ 2 ≤ (x * x + na) * (y * y + nb) := by
  have hA : 0 ≤ x ^ 2 * nb := mul_nonneg (sq_nonneg x) hnb
  have hB : 0 ≤ y ^ 2 * na := mul_nonneg (sq_nonneg y) hna
  have key : 4 * (x * y * d) ^ 2 ≤ (x ^ 2 * nb + y ^ 2 * na) ^ 2 := by
    nlinarith [sq_nonneg (x ^ 2 * nb - y ^ 2 * na),
      mul_nonneg (sq_nonneg (x * y)) (sub_nonneg.mpr h1)]
  rcases le_or_lt (x * y * d) 0 with hE | hE
  · nlinarith [h1, hA, hB]
  · nlinarith [key, hA, hB, h1, hE]

/-- Cauchy–Schwarz for list dot products. -/
theorem dotList_sq_le (a : List ℝ) :
    ∀ b : List ℝ, (dotList a b) ^ 2 ≤ dotList a a * dotList b b := by
  induction a with
  | nil =>
    intro b
    simp [dotList]
  | cons x a ih =>
    intro b
    cases b with
    | nil =>
      have e : dotList (x :: a) [] = 0 := by simp [dotList]
      rw [e]
      have := dotList_self_nonneg (x :: a)
      simp [dotList]
    | cons y b =>
      have e1 : dotList (x :: a) (y :: b) = x * y + dotList a b := by
        simp [dotList]
      have e2 : dotList (x :: a) (x :: a) = x * x + dotList a a := by
        simp [dotList]
      have e3 : dotList (y :: b) (y :: b) = y * y + dotList b b := by
        simp [dotList]
      rw [e1, e2, e3]
      exact cs_step x y (dotList a b) (dotList a a) (dotList b b) (ih b)
        (dotList_self_nonneg a) (dotList_self_nonneg b)

/-- The cosine of the code never lies below `-1` (with the division-by-zero
convention making the degenerate case `0`). -/
theorem neg_one_le_cosine (a b : List ℝ) : -1 ≤ cosine a b := by
  unfold cosine
  set d := dotList a b with hd
  set D := Real.sqrt (dotList a a) * Real.sqrt (dotList b b) with hD
  have hDnn : 0 ≤ D := mul_nonneg (Real.sqrt_nonneg _) (Real.sqrt_nonneg _)
  rcases eq_or_lt_of_le hDnn with h0 | hpos
  · rw [← h0, div_zero]
    norm_num
  · have hD2 : D ^ 2 = dotList a a * dotList b b := by
      rw [hD, mul_pow, Real.sq_sqrt (dotList_self_nonneg a),
        Real.sq_sqrt (dotList_self_nonneg b)]
    have hd2 : d ^ 2 ≤ D ^ 2 := by
      rw [hD2]
      exact dotList_sq_le a b
    have hdD : -D ≤ d := by nlinarith [sq_nonneg (d + D)]
    rw [le_div_iff₀ hpos]
    linarith

/-! ## Lemmas about the maximum-similarity loop -/

/-- The strict-update loop body is `max`. -/
theorem foldl_if_max (l : List ℝ) :
    ∀ a : ℝ, l.foldl (fun m s => if m < s then s else m) a = l.foldl max a := by
  induction l with
  | nil => intro a; rfl
  | cons x l ih =>
    intro a
    simp only [List.foldl_cons]
    have e : (if a < x then x else a) = max a x := by
      rcases le_or_lt x a with h | h
      · rw [if_neg (not_lt.mpr h), max_eq_left h]
      · rw [if_pos h, max_eq_right h.le]
    rw [e, ih]

/-- `maxSimLoop` is the `max`-fold of the similarity list started at `-1`. -/
theorem maxSimLoop_eq (e : List ℝ) (ies : List (String × List ℝ)) :
    maxSimLoop e ies = (ies.map (fun i => cosine e i.2)).foldl max (-1) := by
  unfold maxSimLoop
  rw [← foldl_if_max]
  simp only [List.foldl_map]

/-- A `max`-fold dominates its start. -/
theorem le_foldl_max (l : List ℝ) : ∀ a : ℝ, a ≤ l.foldl max a := by
  induction l with
  | nil => intro a; exact le_refl a
  | cons x l ih =>
    intro a
    exact le_trans (le_max_left a x) (ih (max a x))

/-- A `max`-fold dominates every list element. -/
theorem foldl_max_ub (l : List ℝ) :
    ∀ a : ℝ, ∀ x ∈ l, x ≤ l.foldl max a := by
  induction l with
  | nil => intro a x hx; simp at hx
  | cons y l ih =>
    intro a x hx
    rcases List.mem_cons.mp hx with rfl | hx
    · exact le_trans (le_max_right a x) (le_foldl_max l (max a x))
    · exact ih (max a y) x hx

/-- A `max`-fold is its start or one of the list elements. -/
theorem foldl_max_mem (l : List ℝ) :
    ∀ a : ℝ, l.foldl max a = a ∨ l.foldl max a ∈ l := by
  induction l with
  | nil => intro a; exact Or.inl rfl
  | cons y l ih =>
    intro a
    rcases ih (max a y) with h | h
    · rcases max_choice a y with h2 | h2
      · exact Or.inl (by rw [List.foldl_cons, h, h2])
      · exact Or.inr (by rw [List.foldl_cons, h, h2]; exact List.mem_cons_self y l)
    · exact Or.inr (List.mem_cons_of_mem y h)

/-- Over a nonempty cache, `maxSimLoop` attains the maximum of the cosine
similarities: it is one of them and dominates all of them. -/
theorem maxSimLoop_is_max (e : List ℝ) (ies : List (String × List ℝ))
    (h : ies ≠ []) :
    maxSimLoop e ies ∈ ies.map (fun i => cosine e i.2) ∧
    ∀ x ∈ ies.map (fun i => cosine e i.2), x ≤ maxSimLoop e ies := by
  have hub : ∀ x ∈ ies.map (fun i => cosine e i.2), x ≤ maxSimLoop e ies := by
    rw [maxSimLoop_eq]
    exact foldl_max_ub _ (-1)
  refine ⟨?_, hub⟩
  rcases foldl_max_mem (ies.map (fun i => cosine e i.2)) (-1) with h0 | h0
  · have hne : ies.map (fun i => cosine e i.2) ≠ [] := by
      simpa [List.map_eq_nil_iff] using h
    obtain ⟨c, hc⟩ := List.exists_mem_of_ne_nil _ hne
    have h1 : c ≤ -1 := by
      have := foldl_max_ub (ies.map (fun i => cosine e i.2)) (-1) c hc
      rw [h0] at this
      exact this
    have h2 : -1 ≤ c := by
      obtain ⟨i, _, hi⟩ := List.mem_map.mp hc
      rw [← hi]
      exact neg_one_le_cosine e i.2
    have hc1 : c = -1 := le_antisymm h1 h2
    rw [maxSimLoop_eq, h0, ← hc1]
    exact hc
  · rw [maxSimLoop_eq]
    exact h0

/-! ## Claim C3: tier-1 semantic classification -/

/-- Claim C3 counterexample: with a spam keyword configured and an empty
interest set, a spam tweet is classified `Spam`, not `No interests` — the
spam check precedes the empty-interest check. -/
theorem C3_spam_precedes_no_interests :
    classify ["promoted"] [] (35 / 100 : ℝ) (fun _ => []) "promoted junk" =
      ⟨true, "Spam"⟩ ∧
    (⟨true, "Spam"⟩ : ClassificationResult) ≠ ⟨false, "No interests"⟩ := by
  constructor
  · unfold classify
    rw [if_pos (by decide)]
  · decide

/-- Claim C3 (amended): for a tweet with no configured spam-keyword match,
tier-1 classification computes the embedding, takes the maximum cosine
similarity `dot/(‖a‖·‖b‖)` over the cached interest embeddings, and
returns `isUninteresting = (maxSim < threshold)` with a reason recording
the similarity; an empty interest cache yields `false` / `No interests`
for every such tweet, independently of the embedding provider; the
initial threshold is 0.35. -/
theorem C3_tier1_classification (spamList : List String)
    (ies : List (String × List ℝ)) (thr : ℝ) (emb : String → List ℝ)
    (s : String) (hspam : spamHit spamList s = false) :
    (ies ≠ [] →
      classify spamList ies thr emb s =
        ⟨decide (maxSimLoop (emb s) ies < thr),
          "sim=" ++ jsToFixed2 (maxSimLoop (emb s) ies)⟩ ∧
      maxSimLoop (emb s) ies ∈ ies.map (fun i => cosine (emb s) i.2) ∧
      (∀ x ∈ ies.map (fun i => cosine (emb s) i.2),
        x ≤ maxSimLoop (emb s) ies)) ∧
    classify spamList [] thr emb s = ⟨false, "No interests"⟩ ∧
    (∀ emb' : String → List ℝ,
      classify spamList [] thr emb' s = classify spamList [] thr emb s) ∧
    initialThreshold = 35 / 100 := by
  refine ⟨?_, ?_, ?_, rfl⟩
  · intro hne
    refine ⟨?_, maxSimLoop_is_max (emb s) ies hne⟩
    obtain ⟨p, rest, rfl⟩ := List.exists_cons_of_ne_nil hne
    unfold classify
    simp [hspam]
  · unfold classify
    simp [hspam]
  · intro emb'
    unfold classify
    simp [hspam]
/-- Witness for C3 at a concrete state with one cached interest. -/
theorem C3_tier1_classification_witness :
    spamHit [] "hello" = false ∧
    ((([("ai", [(1 : ℝ)])] : List (String × List ℝ)) ≠ [] →
      classify [] [("ai", [(1 : ℝ)])] (35 / 100 : ℝ) (fun _ => [(1 : ℝ)])
          "hello" =
        ⟨decide (maxSimLoop ((fun _ : String => [(1 : ℝ)]) "hello")
            [("ai", [(1 : ℝ)])] < (35 / 100 : ℝ)),
          "sim=" ++ jsToFixed2 (maxSimLoop ((fun _ : String => [(1 : ℝ)])
            "hello") [("ai", [(1 : ℝ)])])⟩ ∧
      maxSimLoop ((fun _ : String => [(1 : ℝ)]) "hello") [("ai", [(1 : ℝ)])] ∈
        ([("ai", [(1 : ℝ)])] : List (String × List ℝ)).map
          (fun i => cosine ((fun _ : String => [(1 : ℝ)]) "hello") i.2) ∧
      (∀ x ∈ ([("ai", [(1 : ℝ)])] : List (String × List ℝ)).map
          (fun i => cosine ((fun _ : String => [(1 : ℝ)]) "hello") i.2),
        x ≤ maxSimLoop ((fun _ : String => [(1 : ℝ)]) "hello")
          [("ai", [(1 : ℝ)])])) ∧
    classify [] [] (35 / 100 : ℝ) (fun _ => [(1 : ℝ)]) "hello" =
      ⟨false, "No interests"⟩ ∧
    (∀ emb' : String → List ℝ,
      classify [] [] (35 / 100 : ℝ) emb' "hello" =
        classify [] [] (35 / 100 : ℝ) (fun _ => [(1 : ℝ)]) "hello") ∧
    initialThreshold = 35 / 100) :=
  ⟨rfl, C3_tier1_classification [] [("ai", [(1 : ℝ)])] (35 / 100 : ℝ)
    (fun _ => [(1 : ℝ)]) "hello" rfl⟩

/-! ## Claim C10: spam check first in tier 1 -/

/-- Claim C10: in the provider-backed tier-1 classifier the spam-keyword
check runs before every other rule: any tweet whose lowercased text
contains a configured spam keyword is classified `Spam` — even with an
empty interest cache — and the result does not depend on the embedding
provider, so no embedding is computed for it. -/
theorem C10_tier1_spam_first (spamList : List String)
    (ies : List (String × List ℝ)) (thr : ℝ) (emb : String → List ℝ)
    (s : String) (h : spamHit spamList s = true) :
    classify spamList ies thr emb s = ⟨true, "Spam"⟩ ∧
    (∀ emb' : String → List ℝ,
      classify spamList ies thr emb' s = classify spamList ies thr emb s) := by
  constructor
  · unfold classify
    rw [if_pos h]
  · intro emb'
    unfold classify
    rw [if_pos h, if_pos h]

/-- Witness for C10 at a concrete spam tweet with an empty interest
cache. -/
theorem C10_tier1_spam_first_witness :
    spamHit ["promoted"] "This is Promoted content" = true ∧
    (classify ["promoted"] [] (35 / 100 : ℝ) (fun _ => [])
        "This is Promoted content" = ⟨true, "Spam"⟩ ∧
     (∀ emb' : String → List ℝ,
       classify ["promoted"] [] (35 / 100 : ℝ) emb' "This is Promoted content" =
         classify ["promoted"] [] (35 / 100 : ℝ) (fun _ => [])
           "This is Promoted content")) :=
  ⟨by decide, C10_tier1_spam_first ["promoted"] [] (35 / 100 : ℝ)
    (fun _ => []) "This is Promoted content" (by decide)⟩

end Curator
